import Mathlib

/-!
Formal model of the `Builder` derive generator in `src/builder/src/lib.rs`.

The generator consumes a parsed record declaration (a `syn::DeriveInput`) and
emits a builder struct, an `impl` block with setters/appender methods and a
`build` method, and a factory method on the original type.  We embed:

  * the fragment of the `syn` syntax tree that the source inspects
    (`RsType`, path segments, generic arguments, attribute metadata);
  * the type-classification helpers (`get_last_path_segment`, `is_option`,
    `is_vector`, `unwrap_option`, `unwrap_vector`, `unwrap_generic_type`);
  * the three synthesizers (`build_builder_struct`, the setter generation and
    `build` body of `build_builder_impl`, `build_struct_impl`) and the
    top-level `derive` entry point;
  * the run-time semantics of the emitted methods (builder states as lists of
    slot values, setter/appender state transformers, and the `build` body).

Generator panics (Rust `Option::unwrap` on `None` inside the generator) are
modelled by an `Option` result at the generator level: `none` means the
generator itself panics and produces no output at all.
-/

/- ### The inspected fragment of the `syn` syntax tree -/

mutual

/-- A Rust type expression as far as the source inspects it: a path type with
its segments (`syn::Type::Path`), or any other kind of type expression
(`Type::Path` is the only arm `get_last_path_segment` matches). -/
inductive RsType : Type where
  | path (segments : List RsPathSegment) : RsType
  | notPath : RsType

/-- One path segment: an identifier plus its `PathArguments`
(`syn::PathSegment`). -/
inductive RsPathSegment : Type where
  | mk (ident : String) (arguments : RsPathArguments) : RsPathSegment

/-- `syn::PathArguments`: none, angle-bracketed (`<...>`), or parenthesized. -/
inductive RsPathArguments : Type where
  | noArgs : RsPathArguments
  | angleBracketed (args : List RsGenericArgument) : RsPathArguments
  | parenthesized : RsPathArguments

/-- `syn::GenericArgument`: a type argument, or any other kind (lifetime,
const, binding, ...) — the source only ever extracts the `Type` arm. -/
inductive RsGenericArgument : Type where
  | typeArg (ty : RsType) : RsGenericArgument
  | otherArg : RsGenericArgument

end

/-- Projection: the identifier of a path segment. -/
def RsPathSegment.ident : RsPathSegment → String
  | .mk i _ => i

/-- Projection: the arguments of a path segment. -/
def RsPathSegment.args : RsPathSegment → RsPathArguments
  | .mk _ a => a

/- ### The type-classification utilities (lines 235-283 of the source) -/

/-- `get_last_path_segment` (source lines 235-240): the last segment of a path
type, `None` for any non-path type. -/
def get_last_path_segment : RsType → Option RsPathSegment
  | .path segments => segments.getLast?
  | .notPath => none

/-- `is_option` (source lines 242-247): the last path segment's identifier is
literally `Option`. -/
def is_option (ty : RsType) : Bool :=
  match get_last_path_segment ty with
  | some seg => seg.ident == "Option"
  | none => false

/-- `is_vector` (source lines 249-254): the last path segment's identifier is
literally `Vec`. -/
def is_vector (ty : RsType) : Bool :=
  match get_last_path_segment ty with
  | some seg => seg.ident == "Vec"
  | none => false

/-- `unwrap_generic_type` (source lines 270-283): the first angle-bracketed
generic argument of the last path segment, provided it is a type argument. -/
def unwrap_generic_type (ty : RsType) : Option RsType :=
  match get_last_path_segment ty with
  | some seg =>
    match seg.args with
    | .angleBracketed args =>
      args.head?.bind fun arg =>
        match arg with
        | .typeArg t => some t
        | .otherArg => none
    | _ => none
  | none => none

/-- `unwrap_option` (source lines 256-261). -/
def unwrap_option (ty : RsType) : Option RsType :=
  if !is_option ty then none else unwrap_generic_type ty

/-- `unwrap_vector` (source lines 263-268). -/
def unwrap_vector (ty : RsType) : Option RsType :=
  if !is_vector ty then none else unwrap_generic_type ty

/- ### Attribute metadata (the fragment of `syn::Meta` the source matches) -/

/-- `syn::Lit` as far as the source distinguishes it: a string literal, or any
other literal kind (modelled by an integer payload; the source's pattern
`Lit::Str(ref str)` fails on every non-string literal alike). -/
inductive RsLit : Type where
  | str (s : String) : RsLit
  | int (n : Nat) : RsLit

mutual

/-- `syn::Meta` as far as the source matches it.  A name/value pair's path is
modelled by the list of its segment identifiers (the source only reads
`path.segments.first().ident`). -/
inductive RsMeta : Type where
  | list (nested : List RsNestedMeta) : RsMeta
  | nameValue (path : List String) (lit : RsLit) : RsMeta
  | pathMeta : RsMeta

/-- `syn::NestedMeta`: a nested meta item or a nested literal. -/
inductive RsNestedMeta : Type where
  | meta (m : RsMeta) : RsNestedMeta
  | litNested : RsNestedMeta

end

/-- One attribute, after `attr.parse_meta()`: `some m` when parsing succeeded
with meta `m`, `none` when `parse_meta` returned `Err` (the source's
`_ => None` arm on the `Ok(..)` match). -/
def RsAttr : Type := Option RsMeta

/- ### Fields and derive input -/

/-- One named field of the input struct: identifier, declared type, attached
attributes in source order. -/
structure RsField : Type where
  ident : String
  ty : RsType
  attrs : List RsAttr

/-- `syn::Fields`: named, unnamed (tuple struct), or unit. -/
inductive RsFields : Type where
  | named (fields : List RsField) : RsFields
  | unnamed : RsFields
  | unit : RsFields

/-- `syn::Data`: struct, enum, or union. -/
inductive RsData : Type where
  | dataStruct (fields : RsFields) : RsData
  | dataEnum : RsData
  | dataUnion : RsData

/-- `syn::DeriveInput`: name, visibility (opaque, carried through), data. -/
structure RsDeriveInput : Type where
  ident : String
  vis : String
  data : RsData

/- ### The attribute resolver (source lines 8-11 and 102-127) -/

/-- `LitOrError` (source lines 8-11): a resolved `each` name, or a deferred
`syn::Error` (whose message is constant, so it carries no payload here). -/
inductive LitOrError : Type where
  | lit (s : String) : LitOrError
  | error : LitOrError
  deriving DecidableEq

/-- The closure applied to the field's first attribute (source lines 105-126):
match `Ok(Meta::List(..))`, then the first nested item against
`NestedMeta::Meta(Meta::NameValue { path, lit: Lit::Str(str), .. })`; if the
path has a first segment and it is not `each`, defer an error; otherwise
resolve to the string value. -/
def parse_attr_meta : RsAttr → Option LitOrError
  | some (RsMeta.list nested) =>
    match nested.head? with
    | some (RsNestedMeta.meta (RsMeta.nameValue path (RsLit.str s))) =>
      match path.head? with
      | some name => if name == "each" then some (LitOrError.lit s) else some LitOrError.error
      | none => some (LitOrError.lit s)
    | _ => none
  | _ => none

/-- `ident_each_name` (source lines 102-127): apply `parse_attr_meta` to the
field's first attribute only (`attrs.first()`), then flatten. -/
def resolve_each (attrs : List RsAttr) : Option LitOrError :=
  (attrs.head?.map parse_attr_meta).join

/- ### The builder struct synthesizer (source lines 49-79) -/

/-- The storage slot type emitted for one builder field: either the bare type
`#ty`, or `std::option::Option<#ty>`. -/
inductive SlotTy : Type where
  | plain (t : RsType) : SlotTy
  | optionOf (t : RsType) : SlotTy

/-- The slot emitted by `build_builder_struct` for one field (source lines
54-72): first `ty = unwrap_option(field.ty).unwrap_or(field.ty)`, then the
bare `ty` if `is_vector(ty)`, else `Option<ty>`. -/
def build_builder_struct_field (f : RsField) : SlotTy :=
  let ty := (unwrap_option f.ty).getD f.ty
  if is_vector ty then SlotTy.plain ty else SlotTy.optionOf ty

/-- `build_builder_struct` (source lines 49-79): one named slot per field, in
input order. -/
def build_builder_struct (fields : List RsField) : List (String × SlotTy) :=
  fields.map fun f => (f.ident, build_builder_struct_field f)

/- ### The setter generation of `build_builder_impl` (source lines 101-177) -/

/-- One generated method (or error fragment) of the builder `impl`.
`wholeSetter name slot paramTy wrapSome` is `pub fn name(&mut self, v: paramTy)`
whose body assigns `self.slot = Some(v)` when `wrapSome` is true and
`self.slot = v` when it is false; `appender name slot elemTy` is
`pub fn name(&mut self, v: elemTy)` whose body is `self.slot.push(v)`;
`compileError` is a `compile_error!` fragment emitted in place of a method. -/
inductive GenOp : Type where
  | wholeSetter (name : String) (slot : String) (paramTy : RsType) (wrapSome : Bool) : GenOp
  | appender (name : String) (slot : String) (elemTy : RsType) : GenOp
  | compileError (msg : String) : GenOp

/-- The constant diagnostic message of the resolver (source line 116). -/
def each_diag_msg : String := "expected `builder(each = \x22...\x22)`"

/-- The methods generated for one field (source lines 101-177).  `none` models
the generator panicking: in the `Some(Lit(name))` arm the source runs
`unwrap_vector(ty).unwrap()`, which panics when `unwrap_vector` returns
`None`. -/
def build_setters_for_field (f : RsField) : Option (List GenOp) :=
  let ty := (unwrap_option f.ty).getD f.ty
  match resolve_each f.attrs with
  | some (LitOrError.lit name) =>
    match unwrap_vector ty with
    | none => none
    | some ty_each =>
      if f.ident == name then
        some [GenOp.appender name f.ident ty_each]
      else
        some [GenOp.wholeSetter f.ident f.ident ty false,
              GenOp.appender name f.ident ty_each]
  | some LitOrError.error => some [GenOp.compileError each_diag_msg]
  | none =>
    if is_vector ty then
      some [GenOp.wholeSetter f.ident f.ident ty false]
    else
      some [GenOp.wholeSetter f.ident f.ident ty true]

/-- All setters of the `impl` block, one list per field in input order
(source line 101, `fields.named.iter().map(..)`, forced when the `quote!`
interpolation consumes the iterator).  A panic while generating any field's
methods aborts the whole derive. -/
def build_impl_setters : List RsField → Option (List (List GenOp))
  | [] => some []
  | f :: fs => do
    let ops ← build_setters_for_field f
    let rest ← build_impl_setters fs
    pure (ops :: rest)

/- ### The factory synthesizer `build_struct_impl` (source lines 206-233) -/

/-- The initializer emitted for one slot of the fresh builder: `Vec::new()`
or `None`. -/
inductive DefaultVal : Type where
  | emptyVec : DefaultVal
  | noneVal : DefaultVal
  deriving DecidableEq

/-- The initializer `build_struct_impl` picks for one field (source lines
211-223): `Vec::new()` when `is_vector(field.ty)` (the original type, not the
Option-unwrapped one), else `None`. -/
def build_struct_impl_field (f : RsField) : DefaultVal :=
  if is_vector f.ty then DefaultVal.emptyVec else DefaultVal.noneVal

/-- `build_struct_impl` (source lines 206-233): the field initializers of the
builder value returned by the generated factory `builder()`. -/
def build_struct_impl (fields : List RsField) : List (String × DefaultVal) :=
  fields.map fun f => (f.ident, build_struct_impl_field f)

/- ### The top-level entry point `derive` (source lines 13-47) -/

/-- The outcome of the derive: a lone `compile_error!` fragment, or the normal
output (builder struct, methods, factory initializers). -/
inductive DeriveOutput : Type where
  | compileError (msg : String) : DeriveOutput
  | generated (vis : String) (builderName : String)
      (builderFields : List (String × SlotTy))
      (methods : List (List GenOp))
      (factoryDefaults : List (String × DefaultVal)) : DeriveOutput

/-- `derive` (source lines 13-47): non-struct input or a struct without named
fields yields only a `compile_error!` fragment; otherwise the three
synthesizers run and their outputs are concatenated.  `none` models a
generator panic (propagated from `build_setters_for_field`). -/
def derive (input : RsDeriveInput) : Option DeriveOutput :=
  match input.data with
  | RsData.dataStruct (RsFields.named fields) =>
    (build_impl_setters fields).map fun ms =>
      DeriveOutput.generated input.vis (input.ident ++ "Builder")
        (build_builder_struct fields) ms (build_struct_impl fields)
  | RsData.dataStruct _ => some (DeriveOutput.compileError "expects named fields")
  | _ => some (DeriveOutput.compileError "expects struct")

/- ### Run-time semantics of the generated builder methods -/

/-- A run-time value stored in one builder slot, over an abstract value
universe `α`: `opt v` inhabits an `Option`-typed slot, `vec l` inhabits a
`Vec`-typed slot. -/
inductive SlotVal (α : Type) : Type where
  | opt (v : Option α) : SlotVal α
  | vec (l : List α) : SlotVal α
  deriving DecidableEq

/-- The `is_none()` test the generated checks run on a slot (only ever run on
`Option`-typed slots; a `vec` slot never reaches it in well-typed generated
code). -/
def SlotVal.is_none {α : Type} : SlotVal α → Bool
  | .opt none => true
  | _ => false

/-- A run-time value of one field of the built record: a bare required value,
an `Option` value, or a `Vec` value. -/
inductive FieldVal (α : Type) : Type where
  | req (v : α) : FieldVal α
  | opt (v : Option α) : FieldVal α
  | vec (l : List α) : FieldVal α
  deriving DecidableEq

/-- Replace the slot at position `i` of a builder state by `g` of itself;
positions out of range are untouched. -/
def modifySlot {α : Type} (g : SlotVal α → SlotVal α) : Nat → List (SlotVal α) → List (SlotVal α)
  | _, [] => []
  | 0, s :: ss => g s :: ss
  | n + 1, s :: ss => s :: modifySlot g n ss

/-- A call of one generated method, identified by the index of the field it
targets: a wrapping setter (`self.f = Some(v)`), a whole-list setter
(`self.f = v`), or an appender (`self.f.push(v)`). -/
inductive MethodCall (α : Type) : Type where
  | callSetOpt (i : Nat) (a : α) : MethodCall α
  | callSetList (i : Nat) (l : List α) : MethodCall α
  | callPush (i : Nat) (a : α) : MethodCall α

/-- The state transformer of one generated method body (source lines 132-176):
the returned state is both the new builder state and what the method's
`&mut Self` return value points at.  An appender on an `opt` slot cannot arise
from well-typed generated code and is modelled as the identity. -/
def runCall {α : Type} : MethodCall α → List (SlotVal α) → List (SlotVal α)
  | .callSetOpt i a, st => modifySlot (fun _ => SlotVal.opt (some a)) i st
  | .callSetList i l, st => modifySlot (fun _ => SlotVal.vec l) i st
  | .callPush i a, st =>
    modifySlot (fun s => match s with
      | SlotVal.vec l => SlotVal.vec (l ++ [a])
      | s => s) i st

/-- The error message of the generated required-field check (source line 93). -/
def req_err_msg (ident : String) : String :=
  "Required field " ++ "\x27" ++ ident ++ "\x27" ++ " is missing"

/-- The cascade of generated checks at the top of `build` (source lines
86-99): for each field that is neither `Option` nor `Vec` (tested on the
original declared type), in declaration order, return the error as soon as the
slot `is_none()`. -/
def checks {α : Type} : List RsField → List (SlotVal α) → Option String
  | f :: fs, s :: ss =>
    if !is_option f.ty && !is_vector f.ty then
      if s.is_none then some (req_err_msg f.ident) else checks fs ss
    else checks fs ss
  | _, _ => none

/-- The field initializer expression of the `Ok(..)` result of `build`
(source lines 179-190): `self.f.clone()` when the original type is `Option` or
`Vec`, else `self.f.clone().unwrap()`.  `none` models the `unwrap` panicking
on an empty slot. -/
def constructField {α : Type} (f : RsField) (s : SlotVal α) : Option (FieldVal α) :=
  if is_option f.ty || is_vector f.ty then
    some (match s with
      | SlotVal.opt v => FieldVal.opt v
      | SlotVal.vec l => FieldVal.vec l)
  else
    match s with
    | SlotVal.opt (some v) => some (FieldVal.req v)
    | _ => none

/-- All field initializers of the `Ok(..)` result, in declaration order. -/
def constructFields {α : Type} : List RsField → List (SlotVal α) → Option (List (FieldVal α))
  | [], [] => some []
  | f :: fs, s :: ss => do
    let v ← constructField f s
    let rest ← constructFields fs ss
    pure (v :: rest)
  | _, _ => none

/-- The result value of the generated `build` body (source lines 196-201):
run the checks, and if none fires assemble the record.  The outer `Option` is
a run-time panic of the generated code (an `unwrap` of an empty slot), the
inner `Except` the generated `Result`. -/
def build {α : Type} (fields : List RsField) (st : List (SlotVal α)) :
    Option (Except String (List (FieldVal α))) :=
  match checks fields st with
  | some msg => some (Except.error msg)
  | none => (constructFields fields st).map Except.ok

/-- `build` as a state transformer, like the other generated methods: the
generated body (source lines 196-201) mentions each slot only as
`self.#ident.is_none()` or `self.#ident.clone()` and contains no assignment,
so the post-state is the pre-state. -/
def buildMut {α : Type} (fields : List RsField) (st : List (SlotVal α)) :
    (Option (Except String (List (FieldVal α)))) × List (SlotVal α) :=
  (build fields st, st)

/- ### Well-typed builder states -/

/-- A run-time slot value inhabits a slot type: `Option`-typed slots hold
`opt` values, bare (`Vec`) slots hold `vec` values. -/
def SlotMatches {α : Type} (f : RsField) (s : SlotVal α) : Prop :=
  match build_builder_struct_field f with
  | SlotTy.plain _ => ∃ l, s = SlotVal.vec l
  | SlotTy.optionOf _ => ∃ v, s = SlotVal.opt v

/-- A builder state is well-formed for a field list when it has one slot per
field, each inhabiting the slot type `build_builder_struct` emitted for that
field. -/
def WF {α : Type} (fields : List RsField) (st : List (SlotVal α)) : Prop :=
  List.Forall₂ SlotMatches fields st

/-- A field initializer expression inhabits a slot type: `None` initializes an
`Option`-typed slot, `Vec::new()` a bare `Vec` slot (source lines 211-222
versus 62-72). -/
def DefaultFits : SlotTy → DefaultVal → Prop
  | SlotTy.plain _, DefaultVal.emptyVec => True
  | SlotTy.optionOf _, DefaultVal.noneVal => True
  | _, _ => False

/- ### Concrete type expressions used in witnesses and counterexamples -/

/-- The path type `String`. -/
def tyString : RsType := RsType.path [RsPathSegment.mk "String" RsPathArguments.noArgs]

/-- The path type `i32`. -/
def tyI32 : RsType := RsType.path [RsPathSegment.mk "i32" RsPathArguments.noArgs]

/-- The path type `Vec<t>`. -/
def tyVec (t : RsType) : RsType :=
  RsType.path [RsPathSegment.mk "Vec" (RsPathArguments.angleBracketed [RsGenericArgument.typeArg t])]

/-- The path type `Option<t>`. -/
def tyOption (t : RsType) : RsType :=
  RsType.path [RsPathSegment.mk "Option" (RsPathArguments.angleBracketed [RsGenericArgument.typeArg t])]

/- ### The spec's field-kind classifier, realized by `is_option`/`is_vector` -/

/-- The semantic kind of a field (spec section 4.1). -/
inductive Kind : Type where
  | required : Kind
  | optionalKind : Kind
  | listKind : Kind
  deriving DecidableEq

/-- The classification the source implements through its `is_option` /
`is_vector` branch tests: `Option`-last paths are Optional, `Vec`-last paths
are List, everything else Required. -/
def classify (ty : RsType) : Kind :=
  if is_option ty then Kind.optionalKind
  else if is_vector ty then Kind.listKind
  else Kind.required

/- ### Helper lemmas about the classifier and slot synthesis -/

theorem is_option_of_vector (ty : RsType) (h : is_vector ty = true) : is_option ty = false := by
  unfold is_vector at h
  unfold is_option
  cases hseg : get_last_path_segment ty with
  | none => rfl
  | some seg =>
    rw [hseg] at h
    have hid : seg.ident = "Vec" := by simpa using h
    simp [hid]

theorem unwrap_option_of_not_option (ty : RsType) (h : is_option ty = false) :
    unwrap_option ty = none := by
  unfold unwrap_option
  rw [h]
  rfl

theorem slot_of_required (f : RsField) (ho : is_option f.ty = false)
    (hv : is_vector f.ty = false) :
    build_builder_struct_field f = SlotTy.optionOf f.ty := by
  unfold build_builder_struct_field
  rw [unwrap_option_of_not_option f.ty ho]
  simp [hv]

theorem slot_of_vector (f : RsField) (hv : is_vector f.ty = true) :
    build_builder_struct_field f = SlotTy.plain f.ty := by
  unfold build_builder_struct_field
  rw [unwrap_option_of_not_option f.ty (is_option_of_vector f.ty hv)]
  simp [hv]

theorem slot_of_optional (f : RsField) (_ho : is_option f.ty = true)
    (hv : is_vector ((unwrap_option f.ty).getD f.ty) = false) :
    build_builder_struct_field f = SlotTy.optionOf ((unwrap_option f.ty).getD f.ty) := by
  unfold build_builder_struct_field
  simp [hv]

theorem is_option_true_iff (ty : RsType) : is_option ty = true ↔
    ∃ segs seg, ty = RsType.path segs ∧ segs.getLast? = some seg ∧
      RsPathSegment.ident seg = "Option" := by
  cases ty with
  | notPath =>
    constructor
    · intro h; simp [is_option, get_last_path_segment] at h
    · rintro ⟨segs, seg, heq, -, -⟩; cases heq
  | path segs =>
    cases hl : segs.getLast? with
    | none =>
      constructor
      · intro h; simp [is_option, get_last_path_segment, hl] at h
      · rintro ⟨segs', seg, heq, hlast, -⟩
        cases heq
        rw [hl] at hlast
        cases hlast
    | some seg =>
      constructor
      · intro h
        refine ⟨segs, seg, rfl, hl, ?_⟩
        simpa [is_option, get_last_path_segment, hl] using h
      · rintro ⟨segs', seg', heq, hlast, hident⟩
        cases heq
        rw [hl] at hlast
        cases hlast
        simp [is_option, get_last_path_segment, hl, hident]

theorem is_vector_true_iff (ty : RsType) : is_vector ty = true ↔
    ∃ segs seg, ty = RsType.path segs ∧ segs.getLast? = some seg ∧
      RsPathSegment.ident seg = "Vec" := by
  cases ty with
  | notPath =>
    constructor
    · intro h; simp [is_vector, get_last_path_segment] at h
    · rintro ⟨segs, seg, heq, -, -⟩; cases heq
  | path segs =>
    cases hl : segs.getLast? with
    | none =>
      constructor
      · intro h; simp [is_vector, get_last_path_segment, hl] at h
      · rintro ⟨segs', seg, heq, hlast, -⟩
        cases heq
        rw [hl] at hlast
        cases hlast
    | some seg =>
      constructor
      · intro h
        refine ⟨segs, seg, rfl, hl, ?_⟩
        simpa [is_vector, get_last_path_segment, hl] using h
      · rintro ⟨segs', seg', heq, hlast, hident⟩
        cases heq
        rw [hl] at hlast
        cases hlast
        simp [is_vector, get_last_path_segment, hl, hident]

/-- C9: a field's type is classified Optional (resp. List) exactly when it is
a path type whose last segment's identifier is literally `Option` (resp.
`Vec`) — regardless of any preceding path segments, so a user-defined path
ending in `Option`/`Vec` is treated as the well-known wrapper — and every
non-path type expression is classified Required. -/
theorem C9_classify_by_last_segment :
    (∀ ty : RsType, is_option ty = true ↔
        ∃ segs seg, ty = RsType.path segs ∧ segs.getLast? = some seg ∧
          RsPathSegment.ident seg = "Option") ∧
    (∀ ty : RsType, is_vector ty = true ↔
        ∃ segs seg, ty = RsType.path segs ∧ segs.getLast? = some seg ∧
          RsPathSegment.ident seg = "Vec") ∧
    (∀ (pre : List RsPathSegment) (seg : RsPathSegment),
        classify (RsType.path (pre ++ [seg])) =
          (if RsPathSegment.ident seg = "Option" then Kind.optionalKind
           else if RsPathSegment.ident seg = "Vec" then Kind.listKind
           else Kind.required)) ∧
    classify RsType.notPath = Kind.required := by
  refine ⟨is_option_true_iff, is_vector_true_iff, ?_, by decide⟩
  intro pre seg
  have h1 : get_last_path_segment (RsType.path (pre ++ [seg])) = some seg := by
    simp [get_last_path_segment]
  unfold classify is_option is_vector
  rw [h1]
  by_cases ho : seg.ident = "Option"
  · simp [ho]
  · by_cases hv : seg.ident = "Vec"
    · simp [ho, hv]
    · simp [ho, hv]

/- ### C1: the builder slot emitted for an optional-of-list field -/

/-- A field `x: Option<Vec<String>>` with no attribute. -/
def fOptVecString : RsField :=
  { ident := "x", ty := tyOption (tyVec tyString), attrs := [] }

/-- C1: the claim predicts that an `Option<Vec<String>>` field — Optional-kind
per the classifier — gets the builder slot `Option<Vec<String>>`.  The source
instead tests `is_vector` on the already-Option-unwrapped type (line 63 after
line 59), so the emitted slot is the bare `Vec<String>`.  The generator even
contradicts itself on this input: its own factory `build_struct_impl`
initializes the very same slot with `None` (it tests `is_vector` on the
original type, line 214), an initializer that does not inhabit a bare
`Vec<String>` slot, so the emitted fragment cannot type-check. -/
theorem C1_option_vec_slot_divergence :
    build_builder_struct_field fOptVecString = SlotTy.plain (tyVec tyString) ∧
    build_builder_struct_field fOptVecString ≠ SlotTy.optionOf (tyVec tyString) ∧
    classify fOptVecString.ty = Kind.optionalKind ∧
    (unwrap_option fOptVecString.ty).getD fOptVecString.ty = tyVec tyString ∧
    build_struct_impl_field fOptVecString = DefaultVal.noneVal ∧
    ¬ DefaultFits (build_builder_struct_field fOptVecString)
        (build_struct_impl_field fOptVecString) := by
  refine ⟨rfl, ?_, rfl, rfl, rfl, ?_⟩
  · intro h
    exact SlotTy.noConfusion h
  · intro h
    exact h

/- ### C6: non-struct input and structs without named fields -/

/-- C6: for an input that is not a struct, or a struct whose fields are not
named, `derive` emits only a `compile_error!` fragment carrying the shape
diagnostic, and none of the normal output (the `compileError` arm of
`DeriveOutput` carries no builder struct, no methods and no factory). -/
theorem C6_shape_errors :
    (∀ id vis, derive ⟨id, vis, RsData.dataStruct RsFields.unnamed⟩ =
        some (DeriveOutput.compileError "expects named fields")) ∧
    (∀ id vis, derive ⟨id, vis, RsData.dataStruct RsFields.unit⟩ =
        some (DeriveOutput.compileError "expects named fields")) ∧
    (∀ id vis, derive ⟨id, vis, RsData.dataEnum⟩ =
        some (DeriveOutput.compileError "expects struct")) ∧
    (∀ id vis, derive ⟨id, vis, RsData.dataUnion⟩ =
        some (DeriveOutput.compileError "expects struct")) :=
  ⟨fun _ _ => rfl, fun _ _ => rfl, fun _ _ => rfl, fun _ _ => rfl⟩

/- ### C8: a resolved `each` directive on a non-list field panics the generator -/

theorem build_impl_setters_none (fs1 fs2 : List RsField) (f : RsField)
    (h : build_setters_for_field f = none) :
    build_impl_setters (fs1 ++ f :: fs2) = none := by
  induction fs1 with
  | nil => simp [build_impl_setters, h]
  | cons g gs ih =>
    cases hg : build_setters_for_field g with
    | none => simp [build_impl_setters, hg]
    | some ops => simp [build_impl_setters, hg, ih]

/-- C8: when a field's `each` directive resolves to a name but the field's
type after one Option-unwrapping step is not the `Vec` wrapper, the generator
itself panics — `unwrap_vector(ty).unwrap()` on `None`, modelled as `none` —
so the whole derive aborts with no output fragment and no diagnostic. -/
theorem C8_each_on_non_list_panics (f : RsField) (name : String)
    (hres : resolve_each f.attrs = some (LitOrError.lit name))
    (hnv : is_vector ((unwrap_option f.ty).getD f.ty) = false) :
    build_setters_for_field f = none ∧
    ∀ (id vis : String) (fs1 fs2 : List RsField),
      derive ⟨id, vis, RsData.dataStruct (RsFields.named (fs1 ++ f :: fs2))⟩ = none := by
  have h2 : unwrap_vector ((unwrap_option f.ty).getD f.ty) = none := by
    simp [unwrap_vector, hnv]
  have h1 : build_setters_for_field f = none := by
    simp only [build_setters_for_field, hres, h2]
  refine ⟨h1, ?_⟩
  intro id vis fs1 fs2
  simp [derive, build_impl_setters_none fs1 fs2 f h1]

/-- A field `x: String` carrying `#[builder(each = "y")]`. -/
def fEachNonList : RsField :=
  { ident := "x", ty := tyString,
    attrs := [some (RsMeta.list [RsNestedMeta.meta
      (RsMeta.nameValue ["each"] (RsLit.str "y"))])] }

/-- Witness for C8 at the field `#[builder(each = "y")] x: String`. -/
theorem C8_witness :
    build_setters_for_field fEachNonList = none ∧
    derive ⟨"S", "pub", RsData.dataStruct (RsFields.named [fEachNonList])⟩ = none := by
  have h := C8_each_on_non_list_panics fEachNonList "y" rfl rfl
  exact ⟨h.1, h.2 "S" "pub" [] []⟩

/- ### C5: the attribute resolver -/

/-- A field `x: String` carrying `#[builder(foo = 42)]`: the key is present
and differs from `each`, but the value is not a string literal. -/
def fBadKeyIntLit : RsField :=
  { ident := "x", ty := tyString,
    attrs := [some (RsMeta.list [RsNestedMeta.meta
      (RsMeta.nameValue ["foo"] (RsLit.int 42))])] }

/-- C5 counterexample: on `#[builder(foo = 42)]` — a list whose first nested
item is a name/value pair whose key is present and differs from `each` — the
claim predicts the diagnostic, but the source's pattern additionally requires
a *string-literal* value (`lit: Lit::Str(ref str)`), so this attribute falls
to the lenient `_ => None` arm: no diagnostic, and the field gets its normal
setter. -/
theorem C5_counterexample :
    resolve_each fBadKeyIntLit.attrs = none ∧
    build_setters_for_field fBadKeyIntLit =
      some [GenOp.wholeSetter "x" "x" tyString true] ∧
    build_setters_for_field fBadKeyIntLit ≠ some [GenOp.compileError each_diag_msg] := by
  refine ⟨rfl, rfl, ?_⟩
  intro h
  rw [show build_setters_for_field fBadKeyIntLit =
      some [GenOp.wholeSetter "x" "x" tyString true] from rfl] at h
  injection h with h1
  injection h1 with h2 h3
  exact GenOp.noConfusion h2

/-- C5 (amended): the resolver examines only the field's first attribute; when
that attribute is a list whose first nested item is a name/value pair with a
string-literal value and a key that is present but differs from `each`, the
diagnostic `expected builder(each = "...")` is emitted in place of that
field's methods while every sibling field's methods are still generated; when
the attribute does not match the expected shape at all — in particular when
the name/value pair's value is not a string literal — the field is treated
exactly as if it had no attribute (no failure). -/
theorem C5_resolver_amended :
    (∀ (a : RsAttr) (rest : List RsAttr), resolve_each (a :: rest) = resolve_each [a]) ∧
    (∀ (f : RsField) (k : String) (pathRest : List String) (s : String)
        (nestedRest : List RsNestedMeta) (attrsRest : List RsAttr),
        k ≠ "each" →
        f.attrs = some (RsMeta.list (RsNestedMeta.meta
            (RsMeta.nameValue (k :: pathRest) (RsLit.str s)) :: nestedRest)) :: attrsRest →
        build_setters_for_field f = some [GenOp.compileError each_diag_msg]) ∧
    (∀ (f : RsField), build_setters_for_field f = some [GenOp.compileError each_diag_msg] →
        ∀ (fs1 fs2 : List RsField) (o1 o2 : List (List GenOp)),
          build_impl_setters fs1 = some o1 → build_impl_setters fs2 = some o2 →
          build_impl_setters (fs1 ++ f :: fs2) =
            some (o1 ++ [GenOp.compileError each_diag_msg] :: o2)) ∧
    (∀ (f : RsField), resolve_each f.attrs = none →
        build_setters_for_field f = build_setters_for_field { f with attrs := [] }) ∧
    (∀ (k : String) (pathRest : List String) (n : Nat)
        (nestedRest : List RsNestedMeta) (rest : List RsAttr),
        resolve_each (some (RsMeta.list (RsNestedMeta.meta
            (RsMeta.nameValue (k :: pathRest) (RsLit.int n)) :: nestedRest)) :: rest) = none) := by
  refine ⟨fun a rest => rfl, ?_, ?_, ?_, fun k pr n nr rest => rfl⟩
  · intro f k pathRest s nestedRest attrsRest hk hattrs
    have hres : resolve_each f.attrs = some LitOrError.error := by
      rw [hattrs]
      simp [resolve_each, parse_attr_meta, hk]
    simp only [build_setters_for_field, hres]
  · intro f hf fs1
    induction fs1 with
    | nil =>
      intro fs2 o1 o2 h1 h2
      simp only [build_impl_setters] at h1
      injection h1 with h1
      subst h1
      simp [build_impl_setters, hf, h2]
    | cons g gs ih =>
      intro fs2 o1 o2 h1 h2
      cases hg : build_setters_for_field g with
      | none => simp [build_impl_setters, hg] at h1
      | some ops =>
        cases hr : build_impl_setters gs with
        | none => simp [build_impl_setters, hg, hr] at h1
        | some r =>
          simp only [build_impl_setters, hg, hr, Option.bind_some] at h1
          injection h1 with h1
          subst h1
          have := ih fs2 r o2 hr h2
          simp [build_impl_setters, hg, this]
  · intro f hres
    simp only [build_setters_for_field, hres]
    rfl

/-- A field `x: String` carrying `#[builder(foo = "bar")]`: bad key with a
string-literal value. -/
def fBadKeyStrLit : RsField :=
  { ident := "x", ty := tyString,
    attrs := [some (RsMeta.list [RsNestedMeta.meta
      (RsMeta.nameValue ["foo"] (RsLit.str "bar"))])] }

/-- A plain required field `name: String`. -/
def fNamePlain : RsField := { ident := "name", ty := tyString, attrs := [] }

/-- Witness for the amended C5: `#[builder(foo = "bar")]` yields the
diagnostic in place of the field's methods, and a sibling field's setter is
still generated. -/
theorem C5_witness :
    build_setters_for_field fBadKeyStrLit = some [GenOp.compileError each_diag_msg] ∧
    build_impl_setters [fNamePlain, fBadKeyStrLit] =
      some [[GenOp.wholeSetter "name" "name" tyString true],
            [GenOp.compileError each_diag_msg]] := by
  have h2 := C5_resolver_amended.2.1 fBadKeyStrLit "foo" [] "bar" [] [] (by decide) rfl
  refine ⟨h2, ?_⟩
  exact C5_resolver_amended.2.2.1 fBadKeyStrLit h2 [fNamePlain] []
    [[GenOp.wholeSetter "name" "name" tyString true]] [] rfl rfl

/- ### C3: which methods a List-kind field gets -/

/-- C3: for a List-kind field whose `each` directive resolved to `name` and
whose element type is extractable, if `name` equals the field name only the
appender is generated (no whole-list setter); if it differs, both the
whole-list setter (a plain assignment) and the appender (a push) are
generated and both target the same storage slot (the field's own slot); for a
List-kind field with no directive only the whole-list setter is generated. -/
theorem C3_list_field_methods (f : RsField) (hv : is_vector f.ty = true) :
    (∀ name te, resolve_each f.attrs = some (LitOrError.lit name) →
        unwrap_vector f.ty = some te → name = f.ident →
        build_setters_for_field f = some [GenOp.appender name f.ident te]) ∧
    (∀ name te, resolve_each f.attrs = some (LitOrError.lit name) →
        unwrap_vector f.ty = some te → name ≠ f.ident →
        build_setters_for_field f =
          some [GenOp.wholeSetter f.ident f.ident f.ty false,
                GenOp.appender name f.ident te]) ∧
    (resolve_each f.attrs = none →
        build_setters_for_field f = some [GenOp.wholeSetter f.ident f.ident f.ty false]) := by
  have hty : (unwrap_option f.ty).getD f.ty = f.ty := by
    rw [unwrap_option_of_not_option f.ty (is_option_of_vector f.ty hv)]
    rfl
  refine ⟨?_, ?_, ?_⟩
  · intro name te hres hvec hname
    simp only [build_setters_for_field, hres, hty, hvec]
    simp [hname]
  · intro name te hres hvec hname
    simp only [build_setters_for_field, hres, hty, hvec]
    have : (f.ident == name) = false := by
      simp [Ne.symm hname]
    simp [this]
  · intro hres
    simp only [build_setters_for_field, hres, hty]
    simp [hv]

/-- A field `tags: Vec<String>` carrying `#[builder(each = "tag")]`. -/
def fTags : RsField :=
  { ident := "tags", ty := tyVec tyString,
    attrs := [some (RsMeta.list [RsNestedMeta.meta
      (RsMeta.nameValue ["each"] (RsLit.str "tag"))])] }

/-- Witness for C3 at `#[builder(each = "tag")] tags: Vec<String>`: the
directive name differs from the field name, so both the whole-list setter and
the appender are generated, both on slot `tags`. -/
theorem C3_witness :
    build_setters_for_field fTags =
      some [GenOp.wholeSetter "tags" "tags" (tyVec tyString) false,
            GenOp.appender "tag" "tags" tyString] :=
  (C3_list_field_methods fTags rfl).2.1 "tag" tyString rfl rfl (by decide)

/- ### C7: run-time behavior of setters and appenders -/

/-- The index of the builder slot a method call targets. -/
def MethodCall.target {α : Type} : MethodCall α → Nat
  | .callSetOpt i _ => i
  | .callSetList i _ => i
  | .callPush i _ => i

theorem modifySlot_getElem_self {α : Type} (g : SlotVal α → SlotVal α) :
    ∀ (i : Nat) (st : List (SlotVal α)) (s : SlotVal α), st[i]? = some s →
      (modifySlot g i st)[i]? = some (g s)
  | _, [], _, h => by simp at h
  | 0, s' :: _, s, h => by
    simp only [List.getElem?_cons_zero, Option.some.injEq] at h
    subst h
    simp [modifySlot]
  | n + 1, s' :: ss, s, h => by
    simp only [List.getElem?_cons_succ] at h
    simpa [modifySlot] using modifySlot_getElem_self g n ss s h

theorem modifySlot_getElem_ne {α : Type} (g : SlotVal α → SlotVal α) :
    ∀ (i j : Nat) (st : List (SlotVal α)), j ≠ i → (modifySlot g i st)[j]? = st[j]?
  | _, _, [], _ => by simp [modifySlot]
  | 0, j, s :: ss, h => by
    cases j with
    | zero => exact absurd rfl h
    | succ m => simp [modifySlot]
  | n + 1, 0, s :: ss, _ => by simp [modifySlot]
  | n + 1, m + 1, s :: ss, h => by
    have hmn : m ≠ n := fun hc => h (by rw [hc])
    simpa [modifySlot] using modifySlot_getElem_ne g n m ss hmn

theorem modifySlot_modifySlot {α : Type} (g h : SlotVal α → SlotVal α) :
    ∀ (i : Nat) (st : List (SlotVal α)),
      modifySlot g i (modifySlot h i st) = modifySlot (fun s => g (h s)) i st
  | _, [] => by simp [modifySlot]
  | 0, s :: ss => rfl
  | n + 1, s :: ss => by simp [modifySlot, modifySlot_modifySlot g h n ss]

/-- C7: calling a whole-value setter twice leaves only the second value
(last-write-wins, for both the Option-wrapping setter and the whole-list
setter); a setter call leaves the slot holding exactly the last value passed;
an appender call appends one element at the end of the list slot, preserving
every previously appended element; and every method mutates only its own slot
of the receiver in place (all other slots are unchanged; the method's
`&mut Self` result is the mutated receiver itself, i.e. the state `runCall`
returns). -/
theorem C7_setter_semantics {α : Type} :
    (∀ (i : Nat) (a b : α) (st : List (SlotVal α)),
        runCall (MethodCall.callSetOpt i b) (runCall (MethodCall.callSetOpt i a) st) =
          runCall (MethodCall.callSetOpt i b) st) ∧
    (∀ (i : Nat) (l1 l2 : List α) (st : List (SlotVal α)),
        runCall (MethodCall.callSetList i l2) (runCall (MethodCall.callSetList i l1) st) =
          runCall (MethodCall.callSetList i l2) st) ∧
    (∀ (i : Nat) (a : α) (st : List (SlotVal α)) (l : List α),
        st[i]? = some (SlotVal.vec l) →
        (runCall (MethodCall.callPush i a) st)[i]? = some (SlotVal.vec (l ++ [a]))) ∧
    (∀ (c : MethodCall α) (st : List (SlotVal α)) (j : Nat), j ≠ c.target →
        (runCall c st)[j]? = st[j]?) ∧
    (∀ (i : Nat) (a : α) (st : List (SlotVal α)) (s : SlotVal α), st[i]? = some s →
        (runCall (MethodCall.callSetOpt i a) st)[i]? = some (SlotVal.opt (some a))) := by
  refine ⟨?_, ?_, ?_, ?_, ?_⟩
  · intro i a b st
    exact modifySlot_modifySlot _ _ i st
  · intro i l1 l2 st
    exact modifySlot_modifySlot _ _ i st
  · intro i a st l h
    exact modifySlot_getElem_self _ i st _ h
  · intro c st j hj
    cases c with
    | callSetOpt i a => exact modifySlot_getElem_ne _ i j st hj
    | callSetList i l => exact modifySlot_getElem_ne _ i j st hj
    | callPush i a => exact modifySlot_getElem_ne _ i j st hj
  · intro i a st s h
    simpa [runCall] using modifySlot_getElem_self (fun _ => SlotVal.opt (some a)) i st s h

/-- Witness for C7: pushing onto slot 0 of `[vec [1], opt none]` appends the
element and leaves slot 1 unchanged. -/
theorem C7_witness :
    (runCall (MethodCall.callPush 0 (2 : Nat)) [SlotVal.vec [1], SlotVal.opt none])[0]? =
      some (SlotVal.vec ([1] ++ [2])) ∧
    (runCall (MethodCall.callPush 0 (2 : Nat)) [SlotVal.vec [1], SlotVal.opt none])[1]? =
      some (SlotVal.opt (none : Option Nat)) := by
  constructor
  · exact C7_setter_semantics.2.2.1 0 2 [SlotVal.vec [1], SlotVal.opt none] [1] rfl
  · have h := C7_setter_semantics.2.2.2.1 (MethodCall.callPush 0 (2 : Nat))
      [SlotVal.vec [1], SlotVal.opt none] 1 (by decide)
    rw [h]
    rfl

/- ### C2: exactly when `build` returns an error, and which error -/

/-- A zipped (field, slot) pair that the generated checks reject: the field is
neither `Option`- nor `Vec`-kind (so Required) and its slot is still unset. -/
def requiredUnset {α : Type} (p : RsField × SlotVal α) : Bool :=
  (!is_option p.1.ty && !is_vector p.1.ty) && p.2.is_none

theorem checks_eq_firstMissing {α : Type} :
    ∀ (fields : List RsField) (st : List (SlotVal α)),
      checks fields st =
        ((fields.zip st).filter requiredUnset).head?.map (fun p => req_err_msg p.1.ident)
  | [], _ => rfl
  | _ :: _, [] => rfl
  | f :: fs, s :: ss => by
    by_cases hreq : (!is_option f.ty && !is_vector f.ty) = true
    · by_cases hn : SlotVal.is_none s = true
      · simp [checks, hreq, hn, requiredUnset, List.filter_cons]
      · have hn' : SlotVal.is_none s = false := by simpa using hn
        simp [checks, hreq, hn', requiredUnset, List.filter_cons,
          checks_eq_firstMissing fs ss]
    · have hreq' : (!is_option f.ty && !is_vector f.ty) = false := by simpa using hreq
      simp [checks, hreq', requiredUnset, List.filter_cons,
        checks_eq_firstMissing fs ss]

theorem build_error_iff_checks {α : Type} (fields : List RsField) (st : List (SlotVal α))
    (e : String) :
    build fields st = some (Except.error e) ↔ checks fields st = some e := by
  unfold build
  cases hc : checks fields st with
  | some m => simp
  | none =>
    cases hcf : constructFields fields st with
    | none => simp
    | some r => simp

/-- C2: the generated `build` returns an error exactly when some field that is
neither Optional- nor List-kind (i.e. Required; Optional and List fields are
skipped by the check) has an unset slot, and the error it returns is the
message naming the *first* such field in declaration order (missing fields are
never aggregated: the result carries exactly one field name). -/
theorem C2_build_error_iff {α : Type} (fields : List RsField) (st : List (SlotVal α)) :
    ((∃ e, build fields st = some (Except.error e)) ↔
        ∃ p ∈ fields.zip st, requiredUnset p = true) ∧
    (∀ p, ((fields.zip st).filter requiredUnset).head? = some p →
        build fields st = some (Except.error (req_err_msg p.1.ident))) := by
  constructor
  · constructor
    · rintro ⟨e, he⟩
      have hc := (build_error_iff_checks fields st e).mp he
      rw [checks_eq_firstMissing] at hc
      cases hh : ((fields.zip st).filter requiredUnset).head? with
      | none => rw [hh] at hc; cases hc
      | some p =>
        have hmem : p ∈ (fields.zip st).filter requiredUnset :=
          List.mem_of_mem_head? (Option.mem_def.mpr hh)
        have := List.mem_filter.mp hmem
        exact ⟨p, this.1, this.2⟩
    · rintro ⟨p, hmem, hp⟩
      cases hh : ((fields.zip st).filter requiredUnset).head? with
      | none =>
        exfalso
        have : p ∈ (fields.zip st).filter requiredUnset := List.mem_filter.mpr ⟨hmem, hp⟩
        rw [List.head?_eq_none_iff] at hh
        rw [hh] at this
        cases this
      | some q =>
        refine ⟨req_err_msg q.1.ident, ?_⟩
        rw [build_error_iff_checks, checks_eq_firstMissing, hh]
        rfl
  · intro p hp
    rw [build_error_iff_checks, checks_eq_firstMissing, hp]
    rfl

/-- Witness for C2: `struct S { name: String }` with `name` unset: `build`
fails naming `name`. -/
theorem C2_witness :
    build [fNamePlain] [(SlotVal.opt none : SlotVal Nat)] =
      some (Except.error (req_err_msg "name")) :=
  (C2_build_error_iff [fNamePlain] [SlotVal.opt none]).2 (fNamePlain, SlotVal.opt none) rfl

/- ### C4: what a successful `build` returns -/

/-- No field is an optional-of-list.  For an `Option<Vec<..>>` field the
emitted fragment does not type-check at all — `build_builder_struct` emits a
bare `Vec` slot while `build` clones it into the record's `Option` field and
the factory initializes it with `None` (see the C1 theorem) — so run-time
claims about the generated code only range over inputs satisfying this. -/
def NoOptionListField (fields : List RsField) : Prop :=
  ∀ f ∈ fields, is_option f.ty = true →
    is_vector ((unwrap_option f.ty).getD f.ty) = false

/-- What the claim says about one built field value `rv`, given the field and
its builder slot `p`: List-kind fields are copied as-is, Optional-kind fields
equal the slot's option directly, Required-kind fields are the unwrapped
content of a necessarily-set slot. -/
def BuiltFieldSpec {α : Type} (p : RsField × SlotVal α) (rv : FieldVal α) : Prop :=
  (is_vector p.1.ty = true → ∃ l, p.2 = SlotVal.vec l ∧ rv = FieldVal.vec l) ∧
  (is_option p.1.ty = true → ∃ v, p.2 = SlotVal.opt v ∧ rv = FieldVal.opt v) ∧
  (is_option p.1.ty = false → is_vector p.1.ty = false →
    ∃ v, p.2 = SlotVal.opt (some v) ∧ rv = FieldVal.req v)

theorem constructFields_ok {α : Type} :
    ∀ (fields : List RsField) (st : List (SlotVal α)), WF fields st →
      NoOptionListField fields → checks fields st = none →
      ∃ r, constructFields fields st = some r ∧
        List.Forall₂ BuiltFieldSpec (fields.zip st) r := by
  intro fields
  induction fields with
  | nil =>
    intro st hwf _ _
    cases hwf
    exact ⟨[], rfl, List.Forall₂.nil⟩
  | cons f fs ih =>
    intro st hwf hno hch
    cases hwf with
    | cons hf hfs =>
    rename_i s ss
    have hno1 : is_option f.ty = true → is_vector ((unwrap_option f.ty).getD f.ty) = false :=
      hno f (List.mem_cons_self f fs)
    have hno' : NoOptionListField fs := fun g hg => hno g (List.mem_cons_of_mem f hg)
    by_cases hob : is_option f.ty = true
    · have hv2 := hno1 hob
      have hslot := slot_of_optional f hob hv2
      have hv : is_vector f.ty = false := by
        by_contra hvb
        have hvb' : is_vector f.ty = true := by simpa using hvb
        have hcontra := is_option_of_vector f.ty hvb'
        rw [hcontra] at hob
        cases hob
      have hch' : checks fs ss = none := by
        simpa [checks, hob] using hch
      obtain ⟨v, rfl⟩ : ∃ v, s = SlotVal.opt v := by
        simpa [SlotMatches, hslot] using hf
      obtain ⟨r, hcf, hfa⟩ := ih ss hfs hno' hch'
      refine ⟨FieldVal.opt v :: r, ?_, ?_⟩
      · simp [constructFields, constructField, hob, hcf]
      · refine List.Forall₂.cons ⟨?_, ?_, ?_⟩ hfa
        · intro hvec; rw [hvec] at hv; cases hv
        · intro _; exact ⟨v, rfl, rfl⟩
        · intro ho _; rw [hob] at ho; cases ho
    · have ho : is_option f.ty = false := by simpa using hob
      by_cases hvb : is_vector f.ty = true
      · have hslot := slot_of_vector f hvb
        have hch' : checks fs ss = none := by
          simpa [checks, ho, hvb] using hch
        obtain ⟨l, rfl⟩ : ∃ l, s = SlotVal.vec l := by
          simpa [SlotMatches, hslot] using hf
        obtain ⟨r, hcf, hfa⟩ := ih ss hfs hno' hch'
        refine ⟨FieldVal.vec l :: r, ?_, ?_⟩
        · simp [constructFields, constructField, hvb, hcf]
        · refine List.Forall₂.cons ⟨?_, ?_, ?_⟩ hfa
          · intro _; exact ⟨l, rfl, rfl⟩
          · intro hopt; rw [hopt] at ho; cases ho
          · intro _ hv; rw [hvb] at hv; cases hv
      · have hv : is_vector f.ty = false := by simpa using hvb
        have hslot := slot_of_required f ho hv
        obtain ⟨v, rfl⟩ : ∃ v, s = SlotVal.opt v := by
          simpa [SlotMatches, hslot] using hf
        have hcond : (!is_option f.ty && !is_vector f.ty) = true := by simp [ho, hv]
        cases v with
        | none =>
          exfalso
          simp [checks, hcond, SlotVal.is_none] at hch
        | some w =>
          have hch' : checks fs ss = none := by
            simpa [checks, hcond, SlotVal.is_none] using hch
          obtain ⟨r, hcf, hfa⟩ := ih ss hfs hno' hch'
          refine ⟨FieldVal.req w :: r, ?_, ?_⟩
          · simp [constructFields, constructField, ho, hv, hcf]
          · refine List.Forall₂.cons ⟨?_, ?_, ?_⟩ hfa
            · intro hvec; rw [hvec] at hv; cases hv
            · intro hopt; rw [hopt] at ho; cases ho
            · intro _ _; exact ⟨w, rfl, rfl⟩

/-- C4: on a well-formed builder state for a struct whose generated code
type-checks, once the precondition check passes the unwraps in `build` cannot
panic and `build` returns `Ok`; and any `Ok` record it returns has every
List-kind field copied as-is from its slot, every Optional-kind field equal to
the slot's option directly (unset slot gives the absent optional, set slot the
stored value), and every Required-kind field the unwrapped content of its
necessarily-set slot. -/
theorem C4_build_success {α : Type} (fields : List RsField) (st : List (SlotVal α))
    (hwf : WF fields st) (hno : NoOptionListField fields) :
    (checks fields st = none → ∃ r, build fields st = some (Except.ok r)) ∧
    (∀ r, build fields st = some (Except.ok r) →
        List.Forall₂ BuiltFieldSpec (fields.zip st) r) := by
  constructor
  · intro hch
    obtain ⟨r, hcf, _⟩ := constructFields_ok fields st hwf hno hch
    exact ⟨r, by simp [build, hch, hcf]⟩
  · intro r hb
    have hch : checks fields st = none := by
      cases hc : checks fields st with
      | none => rfl
      | some m => simp [build, hc] at hb
    obtain ⟨r', hcf, hfa⟩ := constructFields_ok fields st hwf hno hch
    have hb' : build fields st = some (Except.ok r') := by simp [build, hch, hcf]
    rw [hb'] at hb
    injection hb with hb
    injection hb with hb
    rw [← hb]
    exact hfa

/-- A field `value: Option<i32>` with no attribute. -/
def fValueOpt : RsField := { ident := "value", ty := tyOption tyI32, attrs := [] }

/-- Witness for C4 at `struct S { name: String, value: Option<i32>, tags: Vec<String> }`
with `name` set, `value` unset and `tags` holding two elements. -/
theorem C4_witness :
    ∃ r, build [fNamePlain, fValueOpt, fTags]
        [SlotVal.opt (some (1 : Nat)), SlotVal.opt none, SlotVal.vec [2, 3]] =
      some (Except.ok r) := by
  refine (C4_build_success _ _ ?_ ?_).1 rfl
  · exact List.Forall₂.cons ⟨some 1, rfl⟩ (List.Forall₂.cons ⟨none, rfl⟩
      (List.Forall₂.cons ⟨[2, 3], rfl⟩ List.Forall₂.nil))
  · intro f hf hopt
    simp only [List.mem_cons, List.not_mem_nil, or_false] at hf
    rcases hf with rfl | rfl | rfl
    · exact absurd hopt (by decide)
    · decide
    · exact absurd hopt (by decide)

/- ### C10: `build` does not mutate the builder -/

/-- C10: the generated `build` body mentions each slot only as
`self.#ident.is_none()` or `self.#ident.clone()` and contains no assignment,
so as a state transformer it leaves the builder state unchanged — whether it
returns `Ok` or `Err` — and two consecutive calls on the same builder return
equal results. -/
theorem C10_build_does_not_mutate {α : Type} (fields : List RsField)
    (st : List (SlotVal α)) :
    (buildMut fields st).2 = st ∧
    (buildMut fields ((buildMut fields st).2)).1 = (buildMut fields st).1 :=
  ⟨rfl, rfl⟩
